import Mathlib

/-!
A shallow embedding of `lutris/installer/unattended_install.py`
(class `UnattendedInstall`): the script validator, the orchestration entry
points (`on_scripts_obtained`, `prepare_install`, `select_install_folder`),
the answer-replay callbacks (`input_menu`, `ask_user_for_file`) and the
download supervisor (`start_download`, `download_progress`,
`on_download_complete`), together with theorems about them.

Side effects are modelled as explicit event traces: every call to the status
sink (`self._print`), the logger, the exit callback (`quit_callback`) and the
interpreter/transport collaborators is one element of a `List Event`.  A
function that can raise an uncaught Python exception returns an `Outcome`
that is either `ok trace` (normal return) or `crash trace` (exception raised
after the recorded events).
-/

namespace Lutris

/-- Status or error messages emitted by the orchestrator.  The formatted
strings of the source are modelled structurally: each constructor carries
exactly the data interpolated into the corresponding format string. -/
inductive Msg where
  /-- `"Invalid script: %s"` (missing `name`, `runner` or `version`). -/
  | invalidScript
  /-- `"Number of provided files is wrong. %s instead of %s"`,
  interpolating `len(self.binary_path)` then `len(req_files)`. -/
  | wrongFileCount (provided needed : Nat)
  /-- `"File %s does not exist"`. -/
  | fileMissing (path : String)
  /-- `"Number of provided options is wrong. %s instead of %s"`,
  interpolating `len(self.install_options)` then `len(menus)`. -/
  | wrongOptionCount (provided needed : Nat)
  /-- `"Option %s not available for menu %s"`. -/
  | optionUnavailable (option : String) (menuIndex : Nat)
  /-- `"No install script found"`. -/
  | noInstallScript
  /-- `"Please provide single installer"`. -/
  | singleInstaller
  /-- `"Waiting for response from %s"`. -/
  | waitingForResponse
  /-- `"install Folder %s"`. -/
  | installFolder (path : String)
  /-- message of a `ScriptingError` raised by `check_runner_install`. -/
  | scriptingError (text : String)
  /-- `"%s is not a file"`. -/
  | notAFile (path : String)
  /-- `"Downloading %s to %s"`. -/
  | downloadingMsg
  /-- `"Downloading  %s to %s has an error: %s"` (RuntimeError from the
  `Downloader` constructor). -/
  | ctorFailed (text : String)
  /-- the `"{downloaded:...} / {size:...}MB ..."` progress line. -/
  | progressLine
  /-- `"Download interrupted"`. -/
  | downloadInterrupted
  /-- `"Download canceled"`. -/
  | downloadCanceled
  /-- `self.downloader.error`: the transport's own error text. -/
  | transportError (text : String)
  /-- `str(ex)` for an exception raised by a download completion callback. -/
  | callbackError (text : String)
  /-- `"finished install"`. -/
  | finishedInstall
  deriving DecidableEq

/-- Observable actions of the orchestrator: calls to its status sink, logger
and exit callback, and calls into the interpreter / transport collaborators. -/
inductive Event where
  /-- `self._print(self.commandline, msg)`. -/
  | printed (m : Msg)
  /-- `logger.error(msg)`. -/
  | logError (m : Msg)
  /-- `logger.debug(msg)`. -/
  | logDebug (m : Msg)
  /-- `logger.info("use %s", path)` in `ask_user_for_file`. -/
  | logInfoUse (path : String)
  /-- `self.quit_callback()`. -/
  | quit
  /-- entering `interpreter.ScriptInterpreter(install_script, self)`. -/
  | interpreterCtorCalled
  /-- `self.interpreter.target_path = path`. -/
  | targetPathSet (path : String)
  /-- `self.interpreter.check_runner_install()` returned without raising. -/
  | runnerCheckPassed
  /-- `self.interpreter.user_inputs.append({"alias": a, "value": v})`. -/
  | userInputRecorded (aliasName value : String)
  /-- `self.interpreter._iter_commands()`. -/
  | iterCommands
  /-- `self.interpreter.file_selected(path)`. -/
  | fileSelected (path : String)
  /-- `self.downloader.start()`. -/
  | downloaderStarted
  /-- the caller-supplied download completion callback was invoked. -/
  | callbackInvoked
  /-- `self.interpreter.abort_current_task = None`. -/
  | abortMarkerCleared
  /-- `self.interpreter.iter_game_files()`. -/
  | iterGameFiles
  /-- `jobs.AsyncCall(interpreter.fetch_script, ...)` was scheduled. -/
  | asyncFetchScheduled
  deriving DecidableEq

/-- `on_install_error(message)`: print the message to the status sink, log it
at error severity, then invoke `quit_callback`. -/
def on_install_error (m : Msg) : List Event :=
  [Event.printed m, Event.logError m, Event.quit]

/-- One entry of the script's `files` list: in the source a one-key mapping
`{file_id: source}`; `file[next(iter(file))]` reads `value`. -/
structure FileEntry where
  fileId : String
  value : String
  deriving DecidableEq

/-- One element of `menu["input_menu"]["options"]`: a mapping whose keys are
the option identifiers; the Python test `self.install_options[i] in file` is
key membership. -/
structure MenuOption where
  keys : List String
  deriving DecidableEq

/-- The `input_menu` payload of an installer step: its ordered options. -/
structure InputMenu where
  options : List MenuOption
  deriving DecidableEq

/-- One step of `script["script"]["installer"]`: a mapping that either
contains the key `"input_menu"` (the Python test `"input_menu" in file`) or
not. -/
inductive InstallerStep where
  | inputMenu (menu : InputMenu)
  | other
  deriving DecidableEq

/-- The `script["script"]` sub-mapping: an optional `files` list (the Python
test `"files" in self.script["script"]`) and the `installer` step sequence
(accessed unconditionally). -/
structure ScriptBody where
  files : Option (List FileEntry)
  installer : List InstallerStep
  deriving DecidableEq

/-- A parsed install script.  Top-level keys checked by `validate_scripts`
are modelled as `Option` fields (`none` = key absent / value `None`). -/
structure Script where
  name : Option String
  runner : Option String
  version : Option String
  description : Option String
  notes : Option String
  script : ScriptBody
  deriving DecidableEq

/-- The auto-fix loop of `validate_scripts`:
`for item in ["description", "notes"]: self.script[item] = self.script.get(item) or ""`.
A missing or falsy (`None`/empty) value becomes the empty string. -/
def normalize_script (s : Script) : Script :=
  { s with description := some (s.description.getD ""),
           notes := some (s.notes.getD "") }

/-- The condition of the `req_files` filter:
`"N/A" in file[next(iter(file))]`, i.e. substring containment of `"N/A"`
anywhere in the entry's value. -/
def contains_na (v : String) : Bool :=
  decide (List.IsInfix "N/A".data v.data)

/-- `req_files = list(filter(lambda file: "N/A" in file[next(iter(file))], files))`. -/
def req_files (files : List FileEntry) : List FileEntry :=
  files.filter (fun f => contains_na f.value)

/-- The file-requirements block of `validate_scripts` (under
`if "files" in self.script["script"]:`): returns the message of the first
failing check, or `none` when the block passes.  `pe` models
`system.path_exists`. -/
def files_check (pe : String → Bool) (s : Script) (binary_path : List String) :
    Option Msg :=
  match s.script.files with
  | none => none
  | some fs =>
    if (req_files fs).length = 0 then none
    else if (req_files fs).length ≠ binary_path.length then
      some (Msg.wrongFileCount binary_path.length (req_files fs).length)
    else
      match binary_path.find? (fun f => !pe f) with
      | some f => some (Msg.fileMissing f)
      | none => none

/-- `menus = list(filter(lambda file: "input_menu" in file, installer))`,
projected to the `input_menu` payloads. -/
def menus (installer : List InstallerStep) : List InputMenu :=
  installer.filterMap (fun st =>
    match st with
    | InstallerStep.inputMenu m => some m
    | InstallerStep.other => none)

/-- The enumerated content check over `menus`: for the first index `i` whose
menu offers no option containing `install_options[i]` as a key, the failure
message; `none` when every menu accepts its answer.  `i` is the running
`enumerate` counter. -/
def first_bad_menu (install_options : List String) :
    Nat → List InputMenu → Option Msg
  | _, [] => none
  | i, m :: rest =>
    if (m.options.filter
          (fun opt => opt.keys.contains (install_options.getD i ""))).length = 0 then
      some (Msg.optionUnavailable (install_options.getD i "") i)
    else first_bad_menu install_options (i + 1) rest

/-- The input-menu block of `validate_scripts`: returns the message of the
first failing check, or `none` when the block passes. -/
def menus_check (s : Script) (install_options : List String) : Option Msg :=
  if (menus s.script.installer).length = 0 then none
  else if (menus s.script.installer).length ≠ install_options.length then
    some (Msg.wrongOptionCount install_options.length (menus s.script.installer).length)
  else first_bad_menu install_options 0 (menus s.script.installer)

/-- Result of `validate_scripts`: the returned verdict (`0` pass / `-1`
fail), the script object after its in-place mutation (`self.script`), and the
trace of emitted events. -/
structure VResult where
  verdict : Int
  script : Script
  events : List Event
  deriving DecidableEq

/-- `validate_scripts`: normalize `description`/`notes`, then check mandatory
fields, then the file requirements, then the input-menu answers, returning
`-1` at the first failure (after reporting it through `on_install_error`) and
`0` otherwise. -/
def validate_scripts (pe : String → Bool) (s : Script)
    (binary_path install_options : List String) : VResult :=
  let s2 := normalize_script s
  if s2.name.isNone || s2.runner.isNone || s2.version.isNone then
    ⟨-1, s2, on_install_error Msg.invalidScript⟩
  else
    match files_check pe s2 binary_path with
    | some m => ⟨-1, s2, on_install_error m⟩
    | none =>
      match menus_check s2 install_options with
      | some m => ⟨-1, s2, on_install_error m⟩
      | none => ⟨0, s2, []⟩

/-- Result of running a source function that may raise an uncaught Python
exception: the recorded event trace, ending in a normal return (`ok`) or in
an exception propagating out (`crash`). -/
inductive Outcome where
  | ok (events : List Event)
  | crash (events : List Event)
  deriving DecidableEq

/-- The events recorded by an `Outcome`, whichever way it ended. -/
def Outcome.events : Outcome → List Event
  | Outcome.ok evs => evs
  | Outcome.crash evs => evs

/-- The slice of the `ScriptInterpreter` instance read by
`select_install_folder`: `creates_game_folder`, `get_default_target()` and
the result of `check_runner_install()` (which may raise a `ScriptingError`). -/
structure Interp where
  creates_game_folder : Bool
  default_target : String
  runner_check : Except String Unit

/-- Result of `interpreter.ScriptInterpreter(install_script, self)`: the
constructed interpreter, or a `MissingGameDependency` carrying the dependency
slug. -/
inductive CtorResult where
  | ok (i : Interp)
  | missingDep (slug : String)

/-- `select_install_folder`: set the target path (pre-supplied install path,
or the interpreter's default) when the script creates its own game folder,
then run `check_runner_install`, reporting a `ScriptingError` fatally. -/
def select_install_folder (i : Interp) (install_path : Option String) :
    List Event :=
  (if i.creates_game_folder then
     [Event.targetPathSet (install_path.getD i.default_target),
      Event.printed (Msg.installFolder (install_path.getD i.default_target)),
      Event.logDebug (Msg.installFolder (install_path.getD i.default_target))]
   else [])
  ++ (match i.runner_check with
      | Except.ok _ => [Event.runnerCheckPassed]
      | Except.error e => on_install_error (Msg.scriptingError e))

/-- Modelled from the spec: `system.path_exists` (lutris.util.system, not
under src).  Section 4.2 ACQUIRING_SCRIPT reads the local script only "if a
local script file exists at the given path"; with no path given
(`installer_file=None`) no local script file exists, so the lookup is false. -/
def path_exists_opt (pe : String → Bool) : Option String → Bool
  | none => false
  | some p => pe p

/-- The nested `UnattendedInstall(game_slug=ex.slug)` constructor run for a
missing dependency.  Every other argument keeps its `None` default, so
`system.path_exists(self.installer_file)` is false and the constructor takes
the remote-fetch branch, whose first statement calls
`self._print(self.commandline, ...)` — but `self._print` is `None`
(`cmd_print` was never supplied), so the call raises `TypeError` before any
event is produced and before the asynchronous fetch is even scheduled. -/
def nested_unattended_install (pe : String → Bool) : Outcome :=
  if path_exists_opt pe none then Outcome.ok []
  else Outcome.crash []

/-- `prepare_install`: construct the interpreter; on `MissingGameDependency`
run the nested `UnattendedInstall` for the dependency slug (whose exception,
raised inside the `except` handler, propagates and aborts the parent);
otherwise fall through to `select_install_folder`.  The `if not
install_script` guard never fires here: every value of `Script` models a
parsed mapping containing at least the `"script"` key, hence a non-empty,
truthy dict.  `construct` models the `ScriptInterpreter` collaborator. -/
def prepare_install (pe : String → Bool) (construct : Script → CtorResult)
    (install_path : Option String) (s : Script) : Outcome :=
  match construct s with
  | CtorResult.missingDep _slug =>
    (match nested_unattended_install pe with
     | Outcome.crash evs => Outcome.crash (Event.interpreterCtorCalled :: evs)
     | Outcome.ok evs =>
       -- the missing-dependency path never assigned `self.interpreter`, so
       -- `select_install_folder` would dereference `None` (AttributeError)
       Outcome.crash (Event.interpreterCtorCalled :: evs))
  | CtorResult.ok i =>
    Outcome.ok (Event.interpreterCtorCalled :: select_install_folder i install_path)

/-- The argument of `on_scripts_obtained`: Python `None`, a single parsed
script mapping, or a list of them. -/
inductive Scripts where
  | null
  | single (s : Script)
  | list (ss : List Script)
  deriving DecidableEq

/-- Python truthiness of the `scripts` argument: `None` and the empty list
are falsy; a parsed script mapping contains at least the `"script"` key and
is truthy. -/
def Scripts.truthy : Scripts → Bool
  | Scripts.null => false
  | Scripts.single _ => true
  | Scripts.list ss => !ss.isEmpty

/-- The tail of `on_scripts_obtained` once `self.script` has been assigned:
run `validate_scripts` (returning on a non-zero verdict) and then
`prepare_install` on the (mutated) script.  `pre` is the trace accumulated
so far. -/
def after_script_set (pe : String → Bool) (construct : Script → CtorResult)
    (install_path : Option String) (binary_path install_options : List String)
    (pre : List Event) (s : Script) : Outcome :=
  let v := validate_scripts pe s binary_path install_options
  if v.verdict ≠ 0 then Outcome.ok (pre ++ v.events)
  else
    match prepare_install pe construct install_path v.script with
    | Outcome.ok evs => Outcome.ok (pre ++ v.events ++ evs)
    | Outcome.crash evs => Outcome.crash (pre ++ v.events ++ evs)

/-- `on_scripts_obtained(scripts)`: report "No install script found" when
`scripts` is falsy and "Please provide single installer" when it is a list
whose length is not 1 — in both cases *without* returning — then assign
`self.script` (`scripts[0]` raises `IndexError` on an empty list; a `None`
script makes the first subscript assignment of `validate_scripts` raise
`TypeError`) and continue into validation and preparation. -/
def on_scripts_obtained (pe : String → Bool) (construct : Script → CtorResult)
    (install_path : Option String) (binary_path install_options : List String)
    (scripts : Scripts) : Outcome :=
  let pre := if scripts.truthy then [] else on_install_error Msg.noInstallScript
  match scripts with
  | Scripts.list ss =>
    let pre2 := pre ++ (if ss.length ≠ 1 then on_install_error Msg.singleInstaller else [])
    (match ss.head? with
     | none => Outcome.crash pre2
     | some s =>
       after_script_set pe construct install_path binary_path install_options pre2 s)
  | Scripts.single s =>
    after_script_set pe construct install_path binary_path install_options pre s
  | Scripts.null => Outcome.crash pre

/-- The answer-store cursors of an `UnattendedInstall` instance (field names
as in the source). -/
structure OrchState where
  options_coutner : Nat
  bin_path_coutner : Nat
  deriving DecidableEq

/-- The `input_menu` callback: record
`{"alias": a, "value": install_options[options_coutner]}` in the
interpreter's `user_inputs`, advance the menu cursor, resume
`_iter_commands`.  A cursor beyond the list raises `IndexError` (`none`). -/
def input_menu (install_options : List String) (aliasName : String)
    (st : OrchState) : Option (OrchState × List Event) :=
  match install_options.get? st.options_coutner with
  | none => none
  | some v =>
    some ({ st with options_coutner := st.options_coutner + 1 },
          [Event.userInputRecorded aliasName v, Event.iterCommands])

/-- The `ask_user_for_file` callback: read
`binary_path[bin_path_coutner]` (IndexError beyond the list → `none`); when
it is not a regular file, report fatally and return with the cursor
unchanged; otherwise log it, hand it to `file_selected`, and advance the file
cursor.  `isfile` models `os.path.isfile`. -/
def ask_user_for_file (isfile : String → Bool) (binary_path : List String)
    (st : OrchState) : Option (OrchState × List Event) :=
  match binary_path.get? st.bin_path_coutner with
  | none => none
  | some p =>
    if !isfile p then some (st, on_install_error (Msg.notAFile p))
    else
      some ({ st with bin_path_coutner := st.bin_path_coutner + 1 },
            [Event.logInfoUse p, Event.fileSelected p])

/-- One callback request issued by the interpreter during `EXECUTING`. -/
inductive Request where
  | menu (aliasName : String)
  | file
  deriving DecidableEq

/-- Whether a request is an `input_menu` request. -/
def Request.isMenu : Request → Bool
  | Request.menu _ => true
  | Request.file => false

/-- Whether a request is an `ask_user_for_file` request. -/
def Request.isFile : Request → Bool
  | Request.menu _ => false
  | Request.file => true

/-- Number of `input_menu` requests in a request sequence. -/
def count_menu_requests (reqs : List Request) : Nat :=
  reqs.countP (fun r => r.isMenu)

/-- Number of `ask_user_for_file` requests in a request sequence. -/
def count_file_requests (reqs : List Request) : Nat :=
  reqs.countP (fun r => r.isFile)

/-- Dispatch one interpreter request to the matching callback. -/
def step_request (isfile : String → Bool) (binary_path install_options : List String)
    (st : OrchState) : Request → Option (OrchState × List Event)
  | Request.menu a => input_menu install_options a st
  | Request.file => ask_user_for_file isfile binary_path st

/-- Replay a sequence of interpreter requests against the callback surface,
threading the cursors and accumulating the trace; `none` as soon as a
request raises `IndexError`. -/
def run_requests (isfile : String → Bool) (binary_path install_options : List String) :
    List Request → OrchState → Option (OrchState × List Event)
  | [], st => some (st, [])
  | r :: rs, st =>
    match step_request isfile binary_path install_options st r with
    | none => none
    | some (st2, evs) =>
      match run_requests isfile binary_path install_options rs st2 with
      | none => none
      | some (st3, evs2) => some (st3, evs ++ evs2)

/-- `Downloader` transfer states (`lutris.util.downloader`). -/
inductive DLState where
  | running
  | completed
  | cancelled
  | error
  deriving DecidableEq

/-- The downloader fields read by one `download_progress` call: the current
`state` and, for the ERROR case, `self.downloader.error`. -/
structure DownloaderSnap where
  state : DLState
  errorText : String
  deriving DecidableEq

/-- `download_progress`: when the transfer is CANCELLED or ERROR, report the
failure — the source contains two separate `if state == CANCELLED` blocks,
so a cancellation reports twice ("Download interrupted", then "Download
canceled"), an error once with the transport's text — and return; otherwise
print one progress line. -/
def download_progress (d : DownloaderSnap) : List Event :=
  if d.state = DLState.cancelled ∨ d.state = DLState.error then
    (if d.state = DLState.cancelled then on_install_error Msg.downloadInterrupted
     else on_install_error (Msg.transportError d.errorText))
    ++ (if d.state = DLState.cancelled then on_install_error Msg.downloadCanceled
        else [])
  else [Event.printed Msg.progressLine]

/-- The transfer as observed by the polling loop: `progressOne n` is whether
the n-th `check_progress()` returned `1.0`, `snaps n` is the state read by
the n-th `download_progress` call. -/
structure Downloader where
  snaps : Nat → DownloaderSnap
  progressOne : Nat → Bool

/-- The `while self.downloader.check_progress() != 1.0` polling loop,
bounded by `fuel` iterations starting at poll index `n`: `true` when
`check_progress()` returned `1.0` (the loop exited), `false` when the fuel
ran out with the loop still polling, together with the trace of the
`download_progress` calls made. -/
def download_loop (d : Downloader) : Nat → Nat → Bool × List Event
  | 0, _ => (false, [])
  | fuel + 1, n =>
    if d.progressOne n then (true, [])
    else ((download_loop d fuel (n + 1)).1,
          download_progress (d.snaps n) ++ (download_loop d fuel (n + 1)).2)

/-- `on_download_complete(callback, callback_data)`: invoke the callback when
present — an exception it raises is caught and reported fatally, ending the
run there — otherwise (or on success) clear `abort_current_task` and resume
`iter_game_files`.  The callback's own behaviour is modelled as an `Except`
value: `ok` = returned, `error ex` = raised `ex`. -/
def on_download_complete (callback : Option (Except String Unit)) : List Event :=
  match callback with
  | none => [Event.abortMarkerCleared, Event.iterGameFiles]
  | some (Except.ok _) =>
    [Event.callbackInvoked, Event.abortMarkerCleared, Event.iterGameFiles]
  | some (Except.error e) => Event.callbackInvoked :: on_install_error (Msg.callbackError e)

/-- The fixed events of `start_download` before the polling loop: the status
line, its debug log, and `self.downloader.start()`. -/
def dl_pre : List Event :=
  [Event.printed Msg.downloadingMsg, Event.logDebug Msg.downloadingMsg,
   Event.downloaderStarted]

/-- `start_download`: construct the transfer (a `RuntimeError` is reported
fatally and the function returns `None`), start it, poll it with
`download_progress` until `check_progress()` returns `1.0`, then run
`on_download_complete`.  The first component is `true` when the function
returned, `false` when the bounded loop was still polling. -/
def start_download (ctor : Except String Unit) (d : Downloader)
    (callback : Option (Except String Unit)) (fuel : Nat) : Bool × List Event :=
  match ctor with
  | Except.error e => (true, on_install_error (Msg.ctorFailed e))
  | Except.ok _ =>
    if (download_loop d fuel 0).1 then
      (true, dl_pre ++ (download_loop d fuel 0).2 ++ on_download_complete callback)
    else (false, dl_pre ++ (download_loop d fuel 0).2)

/-- The `logger.error` payloads of a trace: the error messages actually
reported. -/
def reported_errors (evs : List Event) : List Msg :=
  evs.filterMap (fun e =>
    match e with
    | Event.logError m => some m
    | _ => none)

/-- The i-th supplied answer appears among the option identifiers offered by
a menu: some option mapping of the menu has it as a key. -/
def option_available (install_options : List String) (i : Nat) (m : InputMenu) : Prop :=
  ∃ opt ∈ m.options, opt.keys.contains (install_options.getD i "") = true

instance (install_options : List String) (i : Nat) (m : InputMenu) :
    Decidable (option_available install_options i m) := by
  unfold option_available
  infer_instance

/-- A `system.path_exists` environment in which every path exists. -/
def peT : String → Bool := fun _ => true

/-- A minimal valid script: mandatory fields present, no `files` block, no
installer steps. -/
def sOk : Script :=
  ⟨some "g", some "wine", some "1", none, none, ⟨none, []⟩⟩

/-- A valid script requiring one locally supplied file (its single `files`
entry is the `"N/A"` sentinel). -/
def sFileW : Script :=
  ⟨some "g", some "wine", some "1", none, none, ⟨some [⟨"setup.exe", "N/A"⟩], []⟩⟩

/-- A valid script with one `input_menu` step offering the single option
`"opt1"`. -/
def sMenuW : Script :=
  ⟨some "g", some "wine", some "1", none, none,
   ⟨none, [InstallerStep.inputMenu ⟨[⟨["opt1"]⟩]⟩]⟩⟩

/-- A valid script whose single file requirement is a concrete source URI
that merely contains `"N/A"` as a substring. -/
def sUri : Script :=
  ⟨some "g", some "wine", some "1", none, none,
   ⟨some [⟨"installer", "https://example.com/N/Athing.iso"⟩], []⟩⟩

/-- A script missing the mandatory `name` field (and with absent
`description`/`notes`). -/
def sBad : Script :=
  ⟨none, some "wine", some "1", none, none, ⟨none, []⟩⟩

/-- An interpreter that creates no game folder and whose runner check
passes. -/
def iOk : Interp := ⟨false, "", Except.ok ()⟩

/-- A transfer observed running at poll 0 and complete at poll 1. -/
def dW : Downloader := ⟨fun _ => ⟨DLState.running, ""⟩, fun n => n == 1⟩

/-- C1: a single `download_progress` call on a CANCELLED transfer runs
`on_install_error` twice (once per duplicated `if state == CANCELLED`
block), so `quit_callback` fires twice in one run, and further
callback-surface activity (the second report) happens after the first
`quit` — refuting "exactly once, and nothing after it". -/
theorem c1_exit_callback_fires_twice_on_cancel :
    download_progress ⟨DLState.cancelled, ""⟩
      = [Event.printed Msg.downloadInterrupted, Event.logError Msg.downloadInterrupted,
         Event.quit, Event.printed Msg.downloadCanceled, Event.logError Msg.downloadCanceled,
         Event.quit]
    ∧ (download_progress ⟨DLState.cancelled, ""⟩).count Event.quit = 2 :=
  ⟨rfl, rfl⟩

/-- C5: when interpreter construction signals a missing dependency, the
nested `UnattendedInstall(game_slug=...)` raises `TypeError` on its `None`
`cmd_print` callback immediately: `prepare_install` crashes, the nested
orchestrator never reaches a terminal state (no `quit` event anywhere in the
trace) and the parent's `select_install_folder` never begins. -/
theorem c5_missing_dependency_crashes_before_target_selection :
    prepare_install peT (fun _ => CtorResult.missingDep "foo-runtime") none sOk
      = Outcome.crash [Event.interpreterCtorCalled]
    ∧ (prepare_install peT (fun _ => CtorResult.missingDep "foo-runtime") none sOk).events.count
        Event.quit = 0
    ∧ (prepare_install peT (fun _ => CtorResult.missingDep "foo-runtime") none sOk).events.count
        Event.runnerCheckPassed = 0 :=
  ⟨rfl, rfl, rfl⟩

/-- C6: `on_scripts_obtained` on a two-element script list reports the fatal
"Please provide single installer" error (printing it, logging it, invoking
`quit_callback`) but then continues: validation passes on `scripts[0]` and
preparation (`ScriptInterpreter` construction, runner check) still runs —
refuting "no later stage executes". -/
theorem c6_multiple_scripts_error_then_later_stages_run :
    on_scripts_obtained peT (fun _ => CtorResult.ok iOk) none [] [] (Scripts.list [sOk, sOk])
      = Outcome.ok [Event.printed Msg.singleInstaller, Event.logError Msg.singleInstaller,
                    Event.quit, Event.interpreterCtorCalled, Event.runnerCheckPassed] :=
  rfl

/-- C7: a CANCELLED transfer is reported twice, as "Download interrupted"
and then "Download canceled" — refuting "reported exactly once with a single
deterministic message" — while an ERROR transfer is reported once with the
transport's own error text. -/
theorem c7_cancellation_reported_twice :
    reported_errors (download_progress ⟨DLState.cancelled, ""⟩)
      = [Msg.downloadInterrupted, Msg.downloadCanceled]
    ∧ reported_errors (download_progress ⟨DLState.error, "disk full"⟩)
      = [Msg.transportError "disk full"] :=
  ⟨rfl, rfl⟩

/-- C10: `validate_scripts` normalizes `description` and `notes` to the
empty string before any check can fail, so even a script rejected with
verdict `-1` (here: missing `name`) has already been mutated. -/
theorem c10_normalization_precedes_failure (pe : String → Bool) (s : Script)
    (binary_path install_options : List String)
    (hd : s.description = none) (hnotes : s.notes = none) (hname : s.name = none) :
    (validate_scripts pe s binary_path install_options).verdict = -1
    ∧ (validate_scripts pe s binary_path install_options).script.description = some ""
    ∧ (validate_scripts pe s binary_path install_options).script.notes = some "" := by
  simp [validate_scripts, normalize_script, hname, hd, hnotes]

/-- Witness for C10 at the concrete script `sBad`. -/
theorem c10_normalization_precedes_failure_witness :
    (validate_scripts peT sBad [] []).verdict = -1
    ∧ (validate_scripts peT sBad [] []).script.description = some ""
    ∧ (validate_scripts peT sBad [] []).script.notes = some "" :=
  c10_normalization_precedes_failure peT sBad [] [] rfl rfl rfl

lemma validate_scripts_fields_ok (pe : String → Bool) (s : Script)
    (binary_path install_options : List String) (nm rv vs : String)
    (hn : s.name = some nm) (hr : s.runner = some rv) (hv : s.version = some vs) :
    validate_scripts pe s binary_path install_options
      = match files_check pe (normalize_script s) binary_path with
        | some m => ⟨-1, normalize_script s, on_install_error m⟩
        | none =>
          match menus_check (normalize_script s) install_options with
          | some m => ⟨-1, normalize_script s, on_install_error m⟩
          | none => ⟨0, normalize_script s, []⟩ := by
  have h1 : (normalize_script s).name = some nm := hn
  have h2 : (normalize_script s).runner = some rv := hr
  have h3 : (normalize_script s).version = some vs := hv
  rw [validate_scripts]
  rw [show ((normalize_script s).name.isNone || (normalize_script s).runner.isNone
        || (normalize_script s).version.isNone) = false by rw [h1, h2, h3]; rfl]
  rfl

lemma files_check_some_req (pe : String → Bool) (s : Script)
    (binary_path : List String) (fs : List FileEntry)
    (hf : s.script.files = some fs) (hk : (req_files fs).length ≠ 0) :
    files_check pe s binary_path
      = if (req_files fs).length ≠ binary_path.length then
          some (Msg.wrongFileCount binary_path.length (req_files fs).length)
        else
          match binary_path.find? (fun f => !pe f) with
          | some f => some (Msg.fileMissing f)
          | none => none := by
  rw [files_check, hf]
  simp [hk]

/-- C2: for a script with `k > 0` locally-required sentinel files (and
mandatory fields present and the input-menu block passing),
`validate_scripts` returns the pass verdict 0 iff exactly `k` file paths are
supplied and every supplied path exists; a count mismatch fails with a
message citing the supplied count and `k` and emits nothing else (the
existence check is short-circuited); a first missing path fails naming
exactly that path. -/
theorem c2_file_requirement_validation (pe : String → Bool) (s : Script)
    (binary_path install_options : List String) (fs : List FileEntry)
    (nm rv vs : String)
    (hn : s.name = some nm) (hr : s.runner = some rv) (hv : s.version = some vs)
    (hf : s.script.files = some fs)
    (hk : (req_files fs).length ≠ 0)
    (hm : menus_check (normalize_script s) install_options = none) :
    ((validate_scripts pe s binary_path install_options).verdict = 0
       ↔ binary_path.length = (req_files fs).length ∧ ∀ f ∈ binary_path, pe f = true)
    ∧ (binary_path.length ≠ (req_files fs).length →
        (validate_scripts pe s binary_path install_options).verdict = -1
        ∧ (validate_scripts pe s binary_path install_options).events
            = on_install_error (Msg.wrongFileCount binary_path.length (req_files fs).length))
    ∧ (∀ f, binary_path.length = (req_files fs).length →
        binary_path.find? (fun x => !pe x) = some f →
        (validate_scripts pe s binary_path install_options).verdict = -1
        ∧ (validate_scripts pe s binary_path install_options).events
            = on_install_error (Msg.fileMissing f)) := by
  have hnorm : (normalize_script s).script.files = some fs := hf
  have hmain := validate_scripts_fields_ok pe s binary_path install_options nm rv vs hn hr hv
  have hfc := files_check_some_req pe (normalize_script s) binary_path fs hnorm hk
  refine ⟨?_, ?_, ?_⟩
  · constructor
    · intro h0
      by_cases hlen : binary_path.length = (req_files fs).length
      · refine ⟨hlen, ?_⟩
        cases hfind : binary_path.find? (fun x => !pe x) with
        | none =>
          intro f hfmem
          have := List.find?_eq_none.mp hfind f hfmem
          simpa using this
        | some f =>
          exfalso
          rw [hmain, hfc, if_neg (by omega), hfind] at h0
          simp at h0
      · exfalso
        rw [hmain, hfc, if_pos (by omega)] at h0
        simp at h0
    · rintro ⟨hlen, hall⟩
      have hfind : binary_path.find? (fun x => !pe x) = none := by
        rw [List.find?_eq_none]
        intro x hx
        simp [hall x hx]
      rw [hmain, hfc, if_neg (by omega), hfind, hm]
  · intro hlen
    rw [hmain, hfc, if_pos (by omega)]
    exact ⟨rfl, rfl⟩
  · intro f hlen hfind
    rw [hmain, hfc, if_neg (by omega), hfind]
    exact ⟨rfl, rfl⟩

/-- Witness for C2: one sentinel file requirement, one existing supplied
path, validation passes. -/
theorem c2_file_requirement_validation_witness :
    (validate_scripts peT sFileW ["/tmp/setup.exe"] []).verdict = 0 :=
  (c2_file_requirement_validation peT sFileW ["/tmp/setup.exe"] []
      [⟨"setup.exe", "N/A"⟩] "g" "wine" "1" rfl rfl rfl rfl (by decide) rfl).1.mpr
    ⟨by decide, by intro f hfmem; rfl⟩

lemma filter_length_zero_iff (m : InputMenu) (x : String) :
    ((m.options.filter (fun opt => opt.keys.contains x)).length = 0)
      ↔ ¬ ∃ opt ∈ m.options, opt.keys.contains x = true := by
  rw [List.length_eq_zero, List.filter_eq_nil_iff]
  simp

lemma first_bad_menu_none_iff (install_options : List String)
    (ms : List InputMenu) (i : Nat) :
    first_bad_menu install_options i ms = none
      ↔ ∀ j, j < ms.length →
          option_available install_options (i + j) (ms.getD j ⟨[]⟩) := by
  induction ms generalizing i with
  | nil => simp [first_bad_menu]
  | cons m rest ih =>
    by_cases h : (m.options.filter
        (fun opt => opt.keys.contains (install_options.getD i ""))).length = 0
    · simp only [first_bad_menu, if_pos h]
      constructor
      · intro hc
        exact absurd hc (by simp)
      · intro hall
        exfalso
        have h0 := hall 0 (by simp)
        rw [filter_length_zero_iff] at h
        rw [Nat.add_zero, List.getD_cons_zero] at h0
        exact h h0
    · simp only [first_bad_menu, if_neg h]
      rw [ih]
      constructor
      · intro hall j hj
        cases j with
        | zero =>
          rw [filter_length_zero_iff] at h
          have h0 : option_available install_options i m := not_not.mp h
          rw [Nat.add_zero, List.getD_cons_zero]
          exact h0
        | succ j2 =>
          have hlt : j2 < rest.length := by
            simp only [List.length_cons] at hj
            omega
          have h2 := hall j2 hlt
          have heq : (i + 1) + j2 = i + (j2 + 1) := by omega
          rw [heq] at h2
          rw [List.getD_cons_succ]
          exact h2
      · intro hall j hj
        have h2 := hall (j + 1) (by simp only [List.length_cons]; omega)
        have heq : i + (j + 1) = (i + 1) + j := by omega
        rw [heq, List.getD_cons_succ] at h2
        exact h2

lemma first_bad_menu_first (install_options : List String)
    (ms : List InputMenu) (i j : Nat) (hj : j < ms.length)
    (hok : ∀ j2, j2 < j → option_available install_options (i + j2) (ms.getD j2 ⟨[]⟩))
    (hbad : ¬ option_available install_options (i + j) (ms.getD j ⟨[]⟩)) :
    first_bad_menu install_options i ms
      = some (Msg.optionUnavailable (install_options.getD (i + j) "") (i + j)) := by
  induction ms generalizing i j with
  | nil => simp at hj
  | cons m rest ih =>
    cases j with
    | zero =>
      have h : (m.options.filter
          (fun opt => opt.keys.contains (install_options.getD i ""))).length = 0 := by
        rw [filter_length_zero_iff]
        rw [Nat.add_zero, List.getD_cons_zero] at hbad
        exact hbad
      simp only [first_bad_menu, if_pos h, Nat.add_zero]
    | succ j2 =>
      have hcond : ¬ (m.options.filter
          (fun opt => opt.keys.contains (install_options.getD i ""))).length = 0 := by
        rw [filter_length_zero_iff, not_not]
        have h0 := hok 0 (Nat.succ_pos _)
        rw [Nat.add_zero, List.getD_cons_zero] at h0
        exact h0
      simp only [first_bad_menu, if_neg hcond]
      have hlt : j2 < rest.length := by
        simp only [List.length_cons] at hj
        omega
      have heq : (i + 1) + j2 = i + (j2 + 1) := by omega
      have hok2 : ∀ j3, j3 < j2 →
          option_available install_options ((i + 1) + j3) (rest.getD j3 ⟨[]⟩) := by
        intro j3 hj3
        have h3 := hok (j3 + 1) (by omega)
        have heq3 : i + (j3 + 1) = (i + 1) + j3 := by omega
        rw [heq3, List.getD_cons_succ] at h3
        exact h3
      have hbad2 : ¬ option_available install_options ((i + 1) + j2) (rest.getD j2 ⟨[]⟩) := by
        intro hcontra
        apply hbad
        rw [List.getD_cons_succ, ← heq]
        exact hcontra
      have hres := ih (i + 1) j2 hlt hok2 hbad2
      rw [heq] at hres
      exact hres

/-- C3: for a script with `m > 0` `input_menu` steps (and mandatory fields
present and the file block passing), `validate_scripts` returns the pass
verdict 0 iff exactly `m` menu answers are supplied and the i-th answer
appears among the option identifiers of the i-th menu for every i; a count
mismatch fails citing both counts, and the first offending position fails
naming that position and answer. -/
theorem c3_menu_option_validation (pe : String → Bool) (s : Script)
    (binary_path install_options : List String) (nm rv vs : String)
    (hn : s.name = some nm) (hr : s.runner = some rv) (hv : s.version = some vs)
    (hfc : files_check pe (normalize_script s) binary_path = none)
    (hm : (menus s.script.installer).length ≠ 0) :
    ((validate_scripts pe s binary_path install_options).verdict = 0
       ↔ install_options.length = (menus s.script.installer).length
         ∧ ∀ j, j < (menus s.script.installer).length →
             option_available install_options j ((menus s.script.installer).getD j ⟨[]⟩))
    ∧ (install_options.length ≠ (menus s.script.installer).length →
        (validate_scripts pe s binary_path install_options).verdict = -1
        ∧ (validate_scripts pe s binary_path install_options).events
            = on_install_error (Msg.wrongOptionCount install_options.length
                (menus s.script.installer).length))
    ∧ (∀ j, j < (menus s.script.installer).length →
        install_options.length = (menus s.script.installer).length →
        (∀ j2, j2 < j →
          option_available install_options j2 ((menus s.script.installer).getD j2 ⟨[]⟩)) →
        ¬ option_available install_options j ((menus s.script.installer).getD j ⟨[]⟩) →
        (validate_scripts pe s binary_path install_options).verdict = -1
        ∧ (validate_scripts pe s binary_path install_options).events
            = on_install_error (Msg.optionUnavailable (install_options.getD j "") j)) := by
  have hmain := validate_scripts_fields_ok pe s binary_path install_options nm rv vs hn hr hv
  have hmenus : menus (normalize_script s).script.installer = menus s.script.installer := rfl
  have hmc : menus_check (normalize_script s) install_options
      = if (menus s.script.installer).length ≠ install_options.length then
          some (Msg.wrongOptionCount install_options.length (menus s.script.installer).length)
        else first_bad_menu install_options 0 (menus s.script.installer) := by
    rw [menus_check, hmenus]
    simp [hm]
  refine ⟨?_, ?_, ?_⟩
  · constructor
    · intro h0
      by_cases hlen : install_options.length = (menus s.script.installer).length
      · refine ⟨hlen, ?_⟩
        cases hfb : first_bad_menu install_options 0 (menus s.script.installer) with
        | none =>
          intro j hj
          have := (first_bad_menu_none_iff install_options
              (menus s.script.installer) 0).mp hfb j hj
          simpa using this
        | some msg =>
          exfalso
          rw [hmain, hfc, hmc, if_neg (by omega), hfb] at h0
          simp at h0
      · exfalso
        rw [hmain, hfc, hmc, if_pos (by omega)] at h0
        simp at h0
    · rintro ⟨hlen, hall⟩
      have hfb : first_bad_menu install_options 0 (menus s.script.installer) = none := by
        rw [first_bad_menu_none_iff]
        intro j hj
        simpa using hall j hj
      rw [hmain, hfc, hmc, if_neg (by omega), hfb]
  · intro hlen
    rw [hmain, hfc, hmc, if_pos (by omega)]
    exact ⟨rfl, rfl⟩
  · intro j hj hlen hok hbad
    have hfb := first_bad_menu_first install_options (menus s.script.installer) 0 j hj
        (by intro j2 hj2; simpa using hok j2 hj2) (by simpa using hbad)
    rw [hmain, hfc, hmc, if_neg (by omega)]
    rw [show (0 + j) = j by omega] at hfb
    rw [hfb]
    exact ⟨rfl, rfl⟩

/-- Witness for C3: one `input_menu` step offering `"opt1"`, one supplied
answer `"opt1"`, validation passes. -/
theorem c3_menu_option_validation_witness :
    (validate_scripts peT sMenuW [] ["opt1"]).verdict = 0 :=
  (c3_menu_option_validation peT sMenuW [] ["opt1"] "g" "wine" "1"
      rfl rfl rfl rfl (by decide)).1.mpr
    ⟨by decide, by decide⟩

/-- C9: an entry of the `files` list counts as a must-supply-locally
sentinel iff the string `"N/A"` occurs anywhere as a substring of its value;
consequently a concrete source URI merely containing `"N/A"` makes
`validate_scripts` demand a locally supplied file (here: failing with a
count mismatch `0` vs `1` when none is supplied). -/
theorem c9_sentinel_substring_match :
    (∀ (files : List FileEntry) (f : FileEntry),
        f ∈ req_files files ↔ f ∈ files ∧ List.IsInfix "N/A".data f.value.data)
    ∧ (validate_scripts peT sUri [] []).verdict = -1
    ∧ (validate_scripts peT sUri [] []).events
        = on_install_error (Msg.wrongFileCount 0 1) := by
  refine ⟨?_, by decide, by decide⟩
  intro files f
  simp [req_files, List.mem_filter, contains_na]

lemma get_of_lt {α : Type} (l : List α) (n : Nat) (h : n < l.length) :
    ∃ a, l.get? n = some a := by
  cases heq : l.get? n with
  | none =>
    rw [List.get?_eq_none] at heq
    omega
  | some a => exact ⟨a, rfl⟩

/-- C4: during a successfully validated run (request counts within the
validated answer-list lengths, every supplied path an actual file), each
`input_menu` call advances the menu cursor by exactly one and each
`ask_user_for_file` call advances the file cursor by exactly one — neither
is ever decremented — and replaying any such request sequence succeeds with
final cursors equal to the request counts, never exceeding the supplied
answer counts. -/
theorem c4_cursor_invariants (isfile : String → Bool)
    (binary_path install_options : List String)
    (hfiles : ∀ p ∈ binary_path, isfile p = true) :
    (∀ a st, st.options_coutner < install_options.length →
       ∃ v, input_menu install_options a st
         = some ({ st with options_coutner := st.options_coutner + 1 },
                 [Event.userInputRecorded a v, Event.iterCommands]))
    ∧ (∀ st, st.bin_path_coutner < binary_path.length →
       ∃ p, ask_user_for_file isfile binary_path st
         = some ({ st with bin_path_coutner := st.bin_path_coutner + 1 },
                 [Event.logInfoUse p, Event.fileSelected p]))
    ∧ (∀ reqs st,
       st.options_coutner + count_menu_requests reqs ≤ install_options.length →
       st.bin_path_coutner + count_file_requests reqs ≤ binary_path.length →
       ∃ st2 evs,
         run_requests isfile binary_path install_options reqs st = some (st2, evs)
         ∧ st2.options_coutner = st.options_coutner + count_menu_requests reqs
         ∧ st2.bin_path_coutner = st.bin_path_coutner + count_file_requests reqs
         ∧ st2.options_coutner ≤ install_options.length
         ∧ st2.bin_path_coutner ≤ binary_path.length) := by
  have hmenu : ∀ a st, st.options_coutner < install_options.length →
      ∃ v, input_menu install_options a st
        = some ({ st with options_coutner := st.options_coutner + 1 },
                [Event.userInputRecorded a v, Event.iterCommands]) := by
    intro a st h
    obtain ⟨v, hv⟩ := get_of_lt install_options st.options_coutner h
    exact ⟨v, by rw [input_menu, hv]⟩
  have hfile : ∀ st, st.bin_path_coutner < binary_path.length →
      ∃ p, ask_user_for_file isfile binary_path st
        = some ({ st with bin_path_coutner := st.bin_path_coutner + 1 },
                [Event.logInfoUse p, Event.fileSelected p]) := by
    intro st h
    obtain ⟨p, hp⟩ := get_of_lt binary_path st.bin_path_coutner h
    have hmem : p ∈ binary_path := List.get?_mem hp
    refine ⟨p, ?_⟩
    rw [ask_user_for_file, hp]
    simp [hfiles p hmem]
  refine ⟨hmenu, hfile, ?_⟩
  intro reqs
  induction reqs with
  | nil =>
    intro st h1 h2
    refine ⟨st, [], rfl, ?_, ?_, ?_, ?_⟩ <;>
      simp only [count_menu_requests, count_file_requests, List.countP_nil] at * <;> omega
  | cons r rs ih =>
    intro st h1 h2
    cases r with
    | menu a =>
      have hcm : count_menu_requests (Request.menu a :: rs)
          = count_menu_requests rs + 1 := by
        simp [count_menu_requests, List.countP_cons, Request.isMenu]
      have hcf : count_file_requests (Request.menu a :: rs)
          = count_file_requests rs := by
        simp [count_file_requests, List.countP_cons, Request.isFile]
      rw [hcm] at h1
      rw [hcf] at h2
      obtain ⟨v, hv⟩ := hmenu a st (by omega)
      obtain ⟨st2, evs2, hrun, e1, e2, b1, b2⟩ :=
        ih { st with options_coutner := st.options_coutner + 1 }
          (by simp only []; omega) (by simp only []; omega)
      refine ⟨st2, [Event.userInputRecorded a v, Event.iterCommands] ++ evs2, ?_, ?_, ?_, b1, b2⟩
      · simp [run_requests, step_request, hv, hrun]
      · rw [hcm]
        simp only [] at e1
        omega
      · rw [hcf]
        simp only [] at e2
        omega
    | file =>
      have hcm : count_menu_requests (Request.file :: rs)
          = count_menu_requests rs := by
        simp [count_menu_requests, List.countP_cons, Request.isMenu]
      have hcf : count_file_requests (Request.file :: rs)
          = count_file_requests rs + 1 := by
        simp [count_file_requests, List.countP_cons, Request.isFile]
      rw [hcm] at h1
      rw [hcf] at h2
      obtain ⟨p, hp⟩ := hfile st (by omega)
      obtain ⟨st2, evs2, hrun, e1, e2, b1, b2⟩ :=
        ih { st with bin_path_coutner := st.bin_path_coutner + 1 }
          (by simp only []; omega) (by simp only []; omega)
      refine ⟨st2, [Event.logInfoUse p, Event.fileSelected p] ++ evs2, ?_, ?_, ?_, b1, b2⟩
      · simp [run_requests, step_request, hp, hrun]
      · rw [hcm]
        simp only [] at e1
        omega
      · rw [hcf]
        simp only [] at e2
        omega

/-- Witness for C4: one menu request then one file request against one
supplied answer of each kind. -/
theorem c4_cursor_invariants_witness :
    ∃ st2 evs,
      run_requests (fun _ => true) ["/tmp/f1"] ["o1"]
          [Request.menu "m", Request.file] (OrchState.mk 0 0) = some (st2, evs)
      ∧ st2.options_coutner
          = (OrchState.mk 0 0).options_coutner
            + count_menu_requests [Request.menu "m", Request.file]
      ∧ st2.bin_path_coutner
          = (OrchState.mk 0 0).bin_path_coutner
            + count_file_requests [Request.menu "m", Request.file]
      ∧ st2.options_coutner ≤ (["o1"] : List String).length
      ∧ st2.bin_path_coutner ≤ (["/tmp/f1"] : List String).length :=
  (c4_cursor_invariants (fun _ => true) ["/tmp/f1"] ["o1"]
      (by intro p hp; rfl)).2.2
    [Request.menu "m", Request.file] (OrchState.mk 0 0) (by decide) (by decide)

lemma download_progress_no_cb (d : DownloaderSnap) :
    (download_progress d).count Event.callbackInvoked = 0 := by
  cases d with
  | mk st e => cases st <;> rfl

lemma download_progress_no_iter (d : DownloaderSnap) :
    (download_progress d).count Event.iterGameFiles = 0 := by
  cases d with
  | mk st e => cases st <;> rfl

lemma download_loop_no_cb (d : Downloader) (fuel k : Nat) :
    (download_loop d fuel k).2.count Event.callbackInvoked = 0 := by
  induction fuel generalizing k with
  | zero => rfl
  | succ n ih =>
    cases h : d.progressOne k with
    | true => simp [download_loop, h]
    | false => simp [download_loop, h, List.count_append, download_progress_no_cb, ih]

lemma download_loop_no_iter (d : Downloader) (fuel k : Nat) :
    (download_loop d fuel k).2.count Event.iterGameFiles = 0 := by
  induction fuel generalizing k with
  | zero => rfl
  | succ n ih =>
    cases h : d.progressOne k with
    | true => simp [download_loop, h]
    | false => simp [download_loop, h, List.count_append, download_progress_no_iter, ih]

lemma download_loop_stuck (d : Downloader) (h : ∀ n, d.progressOne n = false)
    (fuel k : Nat) : (download_loop d fuel k).1 = false := by
  induction fuel generalizing k with
  | zero => rfl
  | succ n ih => simp [download_loop, h k, ih]

lemma on_download_complete_cb_le_one (cb : Option (Except String Unit)) :
    (on_download_complete cb).count Event.callbackInvoked ≤ 1 := by
  cases cb with
  | none => decide
  | some r =>
    cases r with
    | ok u => cases u; decide
    | error e =>
      have h : (on_download_complete (some (Except.error e))).count
          Event.callbackInvoked = 1 := rfl
      omega

/-- C8: a download whose `check_progress()` reaches 1.0 invokes the
completion callback at most once (first conjunct: at most once on every
path) and then clears `abort_current_task` and resumes `iter_game_files`
(second conjunct); a callback that raises is caught and reported as the
install failure and file processing does not resume (third conjunct); a
transfer whose progress never reaches 1.0 — as a CANCELLED or ERROR
transfer's never does — never has its completion callback invoked (fourth
conjunct). -/
theorem c8_download_completion_behaviour :
    (∀ (ctor : Except String Unit) (d : Downloader)
        (cb : Option (Except String Unit)) (fuel : Nat),
       (start_download ctor d cb fuel).2.count Event.callbackInvoked ≤ 1)
    ∧ (∀ (d : Downloader) (fuel : Nat) (evs : List Event),
       download_loop d fuel 0 = (true, evs) →
       start_download (Except.ok ()) d (some (Except.ok ())) fuel
         = (true, dl_pre ++ evs
             ++ [Event.callbackInvoked, Event.abortMarkerCleared, Event.iterGameFiles]))
    ∧ (∀ (d : Downloader) (fuel : Nat) (evs : List Event) (e : String),
       download_loop d fuel 0 = (true, evs) →
       start_download (Except.ok ()) d (some (Except.error e)) fuel
         = (true, dl_pre ++ evs
             ++ (Event.callbackInvoked :: on_install_error (Msg.callbackError e)))
       ∧ (start_download (Except.ok ()) d (some (Except.error e)) fuel).2.count
           Event.iterGameFiles = 0)
    ∧ (∀ (d : Downloader) (cb : Option (Except String Unit)) (fuel : Nat),
       (∀ n, d.progressOne n = false) →
       (start_download (Except.ok ()) d cb fuel).2.count Event.callbackInvoked = 0) := by
  have hpre_cb : dl_pre.count Event.callbackInvoked = 0 := rfl
  have hpre_iter : dl_pre.count Event.iterGameFiles = 0 := rfl
  refine ⟨?_, ?_, ?_, ?_⟩
  · intro ctor d cb fuel
    cases ctor with
    | error e =>
      have h : (start_download (Except.error e) d cb fuel).2.count
          Event.callbackInvoked = 0 := rfl
      omega
    | ok u =>
      cases u
      cases h : (download_loop d fuel 0).1 with
      | true =>
        have hodc := on_download_complete_cb_le_one cb
        simp only [start_download, h, if_true, List.count_append]
        rw [hpre_cb, download_loop_no_cb]
        omega
      | false =>
        simp [start_download, h, List.count_append, hpre_cb, download_loop_no_cb]
  · intro d fuel evs h
    simp [start_download, h, on_download_complete]
  · intro d fuel evs e h
    have hloop_iter : evs.count Event.iterGameFiles = 0 := by
      have := download_loop_no_iter d fuel 0
      rw [h] at this
      exact this
    constructor
    · simp [start_download, h, on_download_complete]
    · simp only [start_download, h, if_true, List.count_append]
      rw [hpre_iter, hloop_iter]
      rfl
  · intro d cb fuel hnever
    have h1 := download_loop_stuck d hnever fuel 0
    simp [start_download, h1, List.count_append, hpre_cb, download_loop_no_cb]

/-- Witness for C8: a transfer complete at the second poll; the callback is
invoked once and file processing resumes. -/
theorem c8_download_completion_behaviour_witness :
    start_download (Except.ok ()) dW (some (Except.ok ())) 3
      = (true, dl_pre ++ [Event.printed Msg.progressLine]
          ++ [Event.callbackInvoked, Event.abortMarkerCleared, Event.iterGameFiles]) :=
  c8_download_completion_behaviour.2.1 dW 3 [Event.printed Msg.progressLine] rfl

end Lutris

